import Mathlib

/-!
# Verification of the WebAuthn challenge-response backend (`src/backend/main.py`)

This file shallowly embeds the protocol logic of `src/backend/main.py`:
the in-memory `USERS` and `CREDENTIALS` dictionaries, the four ceremony
endpoints (`register_options`, `register_verify`, `authenticate_options`,
`authenticate_verify`), and the session-token issuer
(`create_session_token`, `get_username_from_token`).

Conventions of the embedding:
* Python dictionaries keyed by username become association lists
  (`mapLookup` / `mapSet`); a dictionary key that may be absent becomes an
  `Option` field.
* Randomness (`secrets.token_bytes`, the library-generated challenges) and
  the current time are passed in as explicit parameters.
* The external `py_webauthn` verification primitives
  (`verify_registration_response`, `verify_authentication_response`) and the
  `jose` JWT primitives are out-of-scope collaborators per the spec (§1);
  they are modelled here by executable functions that perform the sub-checks
  the spec (§4.3/§4.4/§4.5) ascribes to them, with the cryptographic
  signature check replaced by a symbolic (Dolev-Yao style) comparison:
  an assertion carries the public key it verifies under, and HMAC is an
  injective-enough executable tag function.
* A raised exception caught by an endpoint's `except` block becomes an
  `Except.error` result carrying the state unchanged; an uncaught exception
  (the `KeyError` possible at `USERS[username]` in `authenticate_options`)
  becomes a distinguished error constructor, also with the state unchanged.
-/

set_option autoImplicit false

/-- Lookup in an association list, mirroring Python `dict.get`. -/
def mapLookup {α : Type} (m : List (String × α)) (k : String) : Option α :=
  match m with
  | [] => none
  | (k', v) :: rest => if k' = k then some v else mapLookup rest k

/-- Insert-or-replace in an association list, mirroring Python `dict[k] = v`. -/
def mapSet {α : Type} (m : List (String × α)) (k : String) (v : α) :
    List (String × α) :=
  match m with
  | [] => [(k, v)]
  | (k', v') :: rest =>
    if k' = k then (k, v) :: rest else (k', v') :: mapSet rest k v

theorem mapLookup_mapSet {α : Type} (m : List (String × α)) (k u : String) (v : α) :
    mapLookup (mapSet m k v) u = if k = u then some v else mapLookup m u := by
  induction m with
  | nil =>
    simp only [mapSet, mapLookup]
  | cons hd tl ih =>
    obtain ⟨k', v'⟩ := hd
    simp only [mapSet]
    by_cases h1 : k' = k
    · subst h1
      rw [if_pos rfl]
      simp only [mapLookup]
      by_cases h2 : k' = u
      · simp [h2]
      · simp [h2]
    · rw [if_neg h1]
      simp only [mapLookup, ih]
      by_cases h2 : k' = u
      · subst h2
        have hk : ¬ k = k' := fun h => h1 h.symm
        simp [hk]
      · simp [h2]

theorem mapSet_self {α : Type} (m : List (String × α)) (k : String) (v : α)
    (h : mapLookup m k = some v) : mapSet m k v = m := by
  induction m with
  | nil => simp [mapLookup] at h
  | cons hd tl ih =>
    obtain ⟨k', v'⟩ := hd
    by_cases h1 : k' = k
    · subst h1
      have h2 : v' = v := by simpa [mapLookup] using h
      simp [mapSet, h2]
    · simp only [mapLookup] at h
      rw [if_neg h1] at h
      simp only [mapSet]
      rw [if_neg h1, ih h]

/-- The `USERS[username]` record, `main.py:72/83/131`.  The fresh record built at
line 72 has only `id` and `name`; the `challenge` and `auth_challenge` keys
are added later (lines 83 and 131), so they are `Option`s here. -/
structure UserRec where
  id : List Nat
  name : String
  challenge : Option (List Nat)
  auth_challenge : Option (List Nat)
  deriving DecidableEq, Repr

/-- The `CREDENTIALS[username]` record, `main.py:105-109`. -/
structure CredRec where
  credential_id : List Nat
  public_key : List Nat
  sign_count : Nat
  deriving DecidableEq, Repr

/-- The whole mutable state of `main.py`: the module-level `USERS` and
`CREDENTIALS` dictionaries (lines 36-37). -/
structure ServerState where
  users : List (String × UserRec)
  creds : List (String × CredRec)
  deriving DecidableEq, Repr

/-- Constant from `main.py:42`. -/
def RP_ID : String := "localhost"

/-- Constant from `main.py:43`. -/
def ORIGIN : String := "http://localhost:3000"

/-- Constant from `main.py:39`. -/
def SECRET_KEY : String := "super-secret-key"

/-- One day (`datetime.timedelta(days=1)`) in seconds, `main.py:46`. -/
def SESSION_TTL : Nat := 86400

/-- JWT claims dictionary `{"sub": username, "exp": expire}`, `main.py:47`. -/
structure TokenPayload where
  sub : String
  exp : Nat
  deriving DecidableEq, Repr

/-- Executable stand-in hash used by the symbolic HMAC model. -/
def strHash (s : String) : Nat :=
  s.data.foldl (fun a c => a * 131 + c.toNat) 7

/-- Symbolic model of the external `jose` HMAC-SHA256 tag over the canonical
encoding of the payload (spec §4.5: "integrity-tags it with a server-held
symmetric key").  The claims proved below hold for any tag function, so a
concrete executable one is used. -/
def signPayload (key : String) (p : TokenPayload) : Nat :=
  strHash key * 1048576 + strHash p.sub * 131 + p.exp

/-- A JWT as seen by `get_username_from_token`: a payload (which may fail to
parse, modelled by `none`) plus the integrity tag.  The `jose` base64/JSON
serialization is external; an unparseable token body is the `none` case. -/
structure SessionToken where
  body : Option TokenPayload
  tag : Nat
  deriving DecidableEq, Repr

/-- Function `create_session_token`, `main.py:45-48`: builds
`{"sub": username, "exp": now + 1 day}` and signs it with `SECRET_KEY`. -/
def create_session_token (now : Nat) (username : String) : SessionToken :=
  let p : TokenPayload := { sub := username, exp := now + SESSION_TTL }
  { body := some p, tag := signPayload SECRET_KEY p }

/-- Function `get_username_from_token`, `main.py:50-55`: `jwt.decode` recomputes the
tag and validates the `exp` claim (`jose` rejects exactly when
`exp < now`); any failure is caught and becomes `None`; on success the
function returns `payload.get("sub")`. -/
def get_username_from_token (now : Nat) (t : SessionToken) : Option String :=
  match t.body with
  | none => none
  | some p =>
    if t.tag = signPayload SECRET_KEY p then
      if p.exp < now then none else some p.sub
    else none

/-- Outcome of the external library verification sub-checks (spec §4.3/§4.4,
§7 taxonomy).  `replayDetected` carries the two counters because the real
`py_webauthn` exception message embeds both values. -/
inductive VerifyErr where
  | challengeMismatch
  | originMismatch
  | rpIdMismatch
  | userPresenceRequired
  | userVerificationRequired
  | replayDetected (reported stored : Nat)
  | signatureInvalid
  deriving DecidableEq, Repr

/-- A client attestation response as the registration verifier sees it after
decoding: the embedded client-data challenge and origin, the relying-party
id its authenticator-data hash commits to, the UP/UV flags, whether the
self-attestation signature is consistent (crypto is external, so a Bool),
and the new credential's id / public key / initial counter. -/
structure AttestationResponse where
  challenge : List Nat
  origin : String
  rp_id : String
  user_present : Bool
  user_verified : Bool
  sig_ok : Bool
  credential_id : List Nat
  public_key : List Nat
  sign_count : Nat
  deriving DecidableEq, Repr

/-- Result structure of the external registration verifier
(`verification.credential_id / credential_public_key / sign_count`,
`main.py:106-108`). -/
structure VerifiedRegistration where
  credential_id : List Nat
  public_key : List Nat
  sign_count : Nat
  deriving DecidableEq, Repr

/-- Model of the external `py_webauthn.verify_registration_response`
(called at `main.py:97-103`), per spec §4.3 step 2: check the embedded
challenge equals the consumed nonce, the origin equals the expected origin,
the relying-party-id hash matches, user presence, user verification (the
call site passes `require_user_verification=True`), and the
self-consistency signature; on success surface the new credential data. -/
def verify_registration_response (att : AttestationResponse)
    (expected_challenge : List Nat) (expected_rp_id expected_origin : String)
    (require_user_verification : Bool) :
    Except VerifyErr VerifiedRegistration :=
  if att.challenge ≠ expected_challenge then .error .challengeMismatch
  else if att.origin ≠ expected_origin then .error .originMismatch
  else if att.rp_id ≠ expected_rp_id then .error .rpIdMismatch
  else if att.user_present = false then .error .userPresenceRequired
  else if require_user_verification && !att.user_verified then
    .error .userVerificationRequired
  else if att.sig_ok = false then .error .signatureInvalid
  else .ok { credential_id := att.credential_id,
             public_key := att.public_key,
             sign_count := att.sign_count }

/-- A client assertion response as the authentication verifier sees it.
`signed_by` is the symbolic model of the cryptographic signature: the
assertion's signature over (authenticator data ∥ client-data hash)
verifies under exactly the public key `signed_by`. -/
structure AssertionResponse where
  challenge : List Nat
  origin : String
  rp_id : String
  user_present : Bool
  user_verified : Bool
  signed_by : List Nat
  sign_count : Nat
  deriving DecidableEq, Repr

/-- Model of the external `py_webauthn.verify_authentication_response`
(called at `main.py:146-154`), per spec §4.4 step 2: challenge, origin and
relying-party-id checks, UP/UV flags, the replay-protection counter rule
(the reported counter must strictly exceed the stored one unless both are
0), and the signature check under the stored public key; on success it
reports `new_sign_count`, the assertion's counter. -/
def verify_authentication_response (a : AssertionResponse)
    (expected_challenge : List Nat) (expected_rp_id expected_origin : String)
    (credential_public_key : List Nat) (credential_current_sign_count : Nat)
    (require_user_verification : Bool) :
    Except VerifyErr Nat :=
  if a.challenge ≠ expected_challenge then .error .challengeMismatch
  else if a.origin ≠ expected_origin then .error .originMismatch
  else if a.rp_id ≠ expected_rp_id then .error .rpIdMismatch
  else if a.user_present = false then .error .userPresenceRequired
  else if require_user_verification && !a.user_verified then
    .error .userVerificationRequired
  else if (0 < a.sign_count ∨ 0 < credential_current_sign_count) ∧
      a.sign_count ≤ credential_current_sign_count then
    .error (.replayDetected a.sign_count credential_current_sign_count)
  else if a.signed_by ≠ credential_public_key then .error .signatureInvalid
  else .ok a.sign_count

/-- Errors of the `/register/*` endpoints.  `missingField` is the 400 for an
absent/empty username or credential; `missingChallengeKey` is the
`KeyError` at `user["challenge"]` (raised inside the `try`, hence caught
and turned into the same 400); `attestation e` wraps a library
verification exception (`main.py:111-112`). -/
inductive RegError where
  | missingField
  | userNotFound
  | missingChallengeKey
  | attestation (e : VerifyErr)
  deriving DecidableEq, Repr

/-- The part of `generate_registration_options`'s output that `main.py`
inspects or returns (`main.py:73-84`). -/
structure RegOptions where
  rp_id : String
  user_id : List Nat
  user_name : String
  challenge : List Nat
  deriving DecidableEq, Repr

/-- Endpoint `register_options`, `main.py:65-84`.  `user_id` models
`secrets.token_bytes(16)` and `challenge` the library-generated nonce, both
passed in as the random inputs.  Line 72 replaces the whole
`USERS[username]` record with a fresh one; line 83 then stores the
registration challenge on it, so the net record is
`{id, name, challenge := some c, auth_challenge := none}`. -/
def register_options (s : ServerState) (username : String)
    (user_id : List Nat) (challenge : List Nat) :
    ServerState × Except RegError RegOptions :=
  if username = "" then (s, .error .missingField)
  else
    let freshUser : UserRec :=
      { id := user_id, name := username,
        challenge := some challenge, auth_challenge := none }
    ({ s with users := mapSet s.users username freshUser },
     .ok { rp_id := RP_ID, user_id := user_id,
           user_name := username, challenge := challenge })

/-- Endpoint `register_verify`, `main.py:86-112`.  On library verification success the
new credential is stored (lines 105-109); any exception inside the `try`
leaves both dictionaries untouched and surfaces as a 400. -/
def register_verify (s : ServerState) (username : String)
    (credential : Option AttestationResponse) :
    ServerState × Except RegError Bool :=
  match credential with
  | none => (s, .error .missingField)
  | some att =>
    if username = "" then (s, .error .missingField)
    else
      match mapLookup s.users username with
      | none => (s, .error .userNotFound)
      | some user =>
        match user.challenge with
        | none => (s, .error .missingChallengeKey)
        | some ch =>
          match verify_registration_response att ch RP_ID ORIGIN true with
          | .error e => (s, .error (.attestation e))
          | .ok v =>
            let newCred : CredRec :=
              { credential_id := v.credential_id,
                public_key := v.public_key,
                sign_count := v.sign_count }
            ({ s with creds := mapSet s.creds username newCred }, .ok true)

/-- Errors of `/authenticate/options` (`main.py:114-132`).  `noCredential` is
the 400 at line 120; `userKeyError` is the uncaught `KeyError` that
`USERS[username]` at line 131 would raise if the user record were absent
(no state is mutated before that lookup). -/
inductive AuthBeginError where
  | noCredential
  | userKeyError
  deriving DecidableEq, Repr

/-- The part of `generate_authentication_options`'s output `main.py` inspects
or returns (`main.py:121-130`): the nonce and the allow-list holding
exactly the stored credential id. -/
structure AuthOptions where
  rp_id : String
  challenge : List Nat
  allow_credentials : List (List Nat)
  deriving DecidableEq, Repr

/-- Endpoint `authenticate_options`, `main.py:114-132`.  `challenge` models the
library-generated nonce.  Note there is no `if not username` guard here:
an unknown username simply misses the `CREDENTIALS` lookup. -/
def authenticate_options (s : ServerState) (username : String)
    (challenge : List Nat) : ServerState × Except AuthBeginError AuthOptions :=
  match mapLookup s.creds username with
  | none => (s, .error .noCredential)
  | some cred =>
    match mapLookup s.users username with
    | none => (s, .error .userKeyError)
    | some user =>
      let user' : UserRec := { user with auth_challenge := some challenge }
      ({ s with users := mapSet s.users username user' },
       .ok { rp_id := RP_ID, challenge := challenge,
             allow_credentials := [cred.credential_id] })

/-- Errors of `/authenticate/verify` (`main.py:134-169`).
`missingChallengeKey` is the `KeyError` at `user["auth_challenge"]`
(line 148), raised inside the `try` and hence caught into the same 400 as
library verification exceptions (`assertion e`). -/
inductive AuthnError where
  | missingField
  | userOrCredNotFound
  | missingChallengeKey
  | assertion (e : VerifyErr)
  deriving DecidableEq, Repr

/-- Endpoint `authenticate_verify`, `main.py:134-169`.  On verification success the
stored credential's `sign_count` is overwritten with the reported counter
(line 156) and a session token is minted (line 158); any exception inside
the `try` leaves the state untouched. -/
def authenticate_verify (s : ServerState) (username : String)
    (credential : Option AssertionResponse) (now : Nat) :
    ServerState × Except AuthnError SessionToken :=
  match credential with
  | none => (s, .error .missingField)
  | some a =>
    if username = "" then (s, .error .missingField)
    else
      match mapLookup s.users username, mapLookup s.creds username with
      | some user, some cred =>
        match user.auth_challenge with
        | none => (s, .error .missingChallengeKey)
        | some ch =>
          match verify_authentication_response a ch RP_ID ORIGIN
              cred.public_key cred.sign_count true with
          | .error e => (s, .error (.assertion e))
          | .ok newCount =>
            let cred' : CredRec := { cred with sign_count := newCount }
            ({ s with creds := mapSet s.creds username cred' },
             .ok (create_session_token now username))
      | _, _ => (s, .error .userOrCredNotFound)

/-- The message of the `py_webauthn` exception for each failed sub-check.
Only the replay message's content matters to the theorems below; it is the
library's f-string, which embeds both counter values. -/
def verifyErrMsg : VerifyErr → String
  | .challengeMismatch => "Clientdata challenge was not expected challenge"
  | .originMismatch => "Unexpected client data origin"
  | .rpIdMismatch => "Unexpected RP ID hash"
  | .userPresenceRequired => "User presence was required"
  | .userVerificationRequired => "User verification is required"
  | .replayDetected reported stored =>
    "Response sign count of " ++ toString reported ++
      " was not greater than current count of " ++ toString stored
  | .signatureInvalid => "Could not verify authentication signature"

/-- The HTTP detail string of each `/authenticate/verify` failure, as built
by `main.py`: line 140/144 literals, and the f-string
`"Authentication failed: \x7be\x7d"` at line 169 for exceptions caught in
the `try` block. -/
def authnErrDetail : AuthnError → String
  | .missingField => "Missing username or credential"
  | .userOrCredNotFound => "User or credential not found"
  | .missingChallengeKey => "Authentication failed: 'auth_challenge'"
  | .assertion e => "Authentication failed: " ++ verifyErrMsg e

/-- Endpoint `/authenticate/verify` as the HTTP caller sees it: a status code and a
body/detail string (`main.py:134-169`).  Every failure path raises
`HTTPException(400, detail)`; success returns a 200 JSON response. -/
def authenticate_verify_http (s : ServerState) (username : String)
    (credential : Option AssertionResponse) (now : Nat) :
    ServerState × Nat × String :=
  match authenticate_verify s username credential now with
  | (s', .ok _) => (s', 200, "authenticated")
  | (s', .error e) => (s', 400, authnErrDetail e)

/-- The states reachable from the initial empty `USERS`/`CREDENTIALS`
dictionaries (`main.py:36-37`) by any sequence of endpoint calls with any
inputs. -/
inductive Reachable : ServerState → Prop where
  | init : Reachable { users := [], creds := [] }
  | regOptions {s : ServerState} (u : String) (uid ch : List Nat) :
      Reachable s → Reachable (register_options s u uid ch).1
  | regVerify {s : ServerState} (u : String) (c : Option AttestationResponse) :
      Reachable s → Reachable (register_verify s u c).1
  | authOptions {s : ServerState} (u : String) (ch : List Nat) :
      Reachable s → Reachable (authenticate_options s u ch).1
  | authVerify {s : ServerState} (u : String) (c : Option AssertionResponse)
      (now : Nat) : Reachable s → Reachable (authenticate_verify s u c now).1

/-! ## Concrete fixtures used by witnesses and by the concrete scenarios -/

/-- A 16-byte nonce used as the concrete challenge in scenarios. -/
def awChallenge : List Nat := [1, 2, 3, 4, 5, 6, 7, 8, 9, 10, 11, 12, 13, 14, 15, 16]

/-- A concrete user handle (`secrets.token_bytes(16)` output). -/
def awUserId : List Nat := [21, 22]

/-- A concrete, fully valid attestation response referencing `awChallenge`. -/
def awAttestation : AttestationResponse :=
  { challenge := awChallenge, origin := ORIGIN, rp_id := RP_ID,
    user_present := true, user_verified := true, sig_ok := true,
    credential_id := [50], public_key := [40, 41], sign_count := 0 }

/-- The state after `register_options` for "alice" on the empty state. -/
def awRegState : ServerState :=
  (register_options { users := [], creds := [] } "alice" awUserId awChallenge).1

/-- A user record of "alice" holding a pending authentication challenge. -/
def awUserA : UserRec :=
  { id := awUserId, name := "alice", challenge := none,
    auth_challenge := some awChallenge }

/-- A stored credential of "alice" whose signature counter is 5. -/
def awCred5 : CredRec :=
  { credential_id := [50], public_key := [40, 41], sign_count := 5 }

/-- A stored credential of "alice" whose signature counter is 0. -/
def awCred0 : CredRec :=
  { credential_id := [50], public_key := [40, 41], sign_count := 0 }

/-- A state in which "alice" has a pending authentication challenge and a
stored credential with counter 5. -/
def awStateAuth : ServerState :=
  { users := [("alice", awUserA)], creds := [("alice", awCred5)] }

/-- A state in which "alice" has a pending authentication challenge and a
stored credential with counter 0. -/
def awStateAuth0 : ServerState :=
  { users := [("alice", awUserA)], creds := [("alice", awCred0)] }

/-- An otherwise-valid assertion whose reported counter 1 does not exceed the
stored counter 5: a replayed/cloned-authenticator response. -/
def awReplayAssertion : AssertionResponse :=
  { challenge := awChallenge, origin := ORIGIN, rp_id := RP_ID,
    user_present := true, user_verified := true, signed_by := [40, 41],
    sign_count := 1 }

/-- A fully valid fresh assertion with reported counter 1. -/
def awFreshAssertion : AssertionResponse :=
  { challenge := awChallenge, origin := ORIGIN, rp_id := RP_ID,
    user_present := true, user_verified := true, signed_by := [40, 41],
    sign_count := 1 }

/-- A fully valid assertion reporting counter 0 (an authenticator that never
increments its counter). -/
def awZeroAssertion : AssertionResponse :=
  { challenge := awChallenge, origin := ORIGIN, rp_id := RP_ID,
    user_present := true, user_verified := true, signed_by := [40, 41],
    sign_count := 0 }

/-- An assertion with a tampered client-data challenge. -/
def awBadChallengeAssertion : AssertionResponse :=
  { challenge := [99], origin := ORIGIN, rp_id := RP_ID,
    user_present := true, user_verified := true, signed_by := [40, 41],
    sign_count := 6 }

/-! ## C1: replay detection rejects and leaves the counter unchanged -/

/-- C1: if Authentication Finish receives an assertion that passes every other
sub-check but whose reported signature counter is less than or equal to the
stored counter, both nonzero, then it fails with the replay-detected error
and the whole state — in particular the stored counter — is unchanged, and
no session token is issued. -/
theorem authenticate_verify_replay_rejected
    (s : ServerState) (u : String) (a : AssertionResponse)
    (user : UserRec) (cred : CredRec) (ch : List Nat) (now : Nat)
    (hne : u ≠ "")
    (hu : mapLookup s.users u = some user)
    (hc : mapLookup s.creds u = some cred)
    (hch : user.auth_challenge = some ch)
    (h1 : a.challenge = ch) (h2 : a.origin = ORIGIN) (h3 : a.rp_id = RP_ID)
    (h4 : a.user_present = true) (h5 : a.user_verified = true)
    (hrep : 0 < a.sign_count) (hstored : 0 < cred.sign_count)
    (hle : a.sign_count ≤ cred.sign_count) :
    authenticate_verify s u (some a) now =
      (s, .error (.assertion (.replayDetected a.sign_count cred.sign_count))) := by
  simp [authenticate_verify, verify_authentication_response, hne, hu, hc, hch,
        h1, h2, h3, h4, h5, hrep, hle]

theorem authenticate_verify_replay_rejected_witness :
    authenticate_verify awStateAuth "alice" (some awReplayAssertion) 0 =
      (awStateAuth, .error (.assertion (.replayDetected 1 5))) :=
  authenticate_verify_replay_rejected awStateAuth "alice" awReplayAssertion
    awUserA awCred5 awChallenge 0 (by decide) rfl rfl rfl rfl rfl rfl rfl rfl
    (by decide) (by decide) (by decide)

/-! ## C5: the 0/0 counter case is accepted and the counter stays 0 -/

/-- C5: an otherwise-valid Authentication Finish whose assertion reports
counter 0 against a stored counter 0 succeeds — a session token is minted —
and the state is unchanged, so the stored counter remains 0. -/
theorem authenticate_verify_zero_counter_succeeds
    (s : ServerState) (u : String) (a : AssertionResponse)
    (user : UserRec) (cred : CredRec) (ch : List Nat) (now : Nat)
    (hne : u ≠ "")
    (hu : mapLookup s.users u = some user)
    (hc : mapLookup s.creds u = some cred)
    (hch : user.auth_challenge = some ch)
    (h1 : a.challenge = ch) (h2 : a.origin = ORIGIN) (h3 : a.rp_id = RP_ID)
    (h4 : a.user_present = true) (h5 : a.user_verified = true)
    (hsig : a.signed_by = cred.public_key)
    (ha0 : a.sign_count = 0) (hc0 : cred.sign_count = 0) :
    authenticate_verify s u (some a) now =
      (s, .ok (create_session_token now u)) := by
  have hcred : ({ cred with sign_count := 0 } : CredRec) = cred := by
    cases cred
    simp_all
  simp [authenticate_verify, verify_authentication_response, hne, hu, hc, hch,
        h1, h2, h3, h4, h5, hsig, ha0, hc0, hcred,
        mapSet_self s.creds u cred hc]

theorem authenticate_verify_zero_counter_succeeds_witness :
    authenticate_verify awStateAuth0 "alice" (some awZeroAssertion) 0 =
      (awStateAuth0, .ok (create_session_token 0 "alice")) :=
  authenticate_verify_zero_counter_succeeds awStateAuth0 "alice"
    awZeroAssertion awUserA awCred0 awChallenge 0 (by decide) rfl rfl rfl rfl
    rfl rfl rfl rfl rfl rfl rfl

/-! ## C6: session-token round trip, expiry and integrity rejection -/

/-- C6: validating a freshly minted token at any time up to its `exp` returns
the identity; validating it once `now` is past `exp` returns invalid
(`none`); a token whose integrity tag does not match the recomputed tag is
invalid; a token whose payload cannot be parsed is invalid. -/
theorem session_token_roundtrip_and_rejection :
    (∀ (u : String) (now now' : Nat), now' ≤ now + SESSION_TTL →
      get_username_from_token now' (create_session_token now u) = some u) ∧
    (∀ (u : String) (now now' : Nat), now + SESSION_TTL < now' →
      get_username_from_token now' (create_session_token now u) = none) ∧
    (∀ (t : SessionToken) (p : TokenPayload) (now' : Nat), t.body = some p →
      t.tag ≠ signPayload SECRET_KEY p →
      get_username_from_token now' t = none) ∧
    (∀ (t : SessionToken) (now' : Nat), t.body = none →
      get_username_from_token now' t = none) := by
  refine ⟨?_, ?_, ?_, ?_⟩
  · intro u now now' h
    simp [get_username_from_token, create_session_token, Nat.not_lt.mpr h]
  · intro u now now' h
    simp [get_username_from_token, create_session_token, h]
  · intro t p now' hb ht
    simp [get_username_from_token, hb, ht]
  · intro t now' hb
    simp [get_username_from_token, hb]

theorem session_token_roundtrip_witness :
    get_username_from_token 10 (create_session_token 0 "alice") =
      some "alice" ∧
    get_username_from_token 86401 (create_session_token 0 "alice") = none ∧
    get_username_from_token 0
      ({ body := some { sub := "alice", exp := 5 }, tag := 0 } :
        SessionToken) = none ∧
    get_username_from_token 0
      ({ body := none, tag := 0 } : SessionToken) = none := by
  refine ⟨?_, ?_, ?_, ?_⟩
  · exact session_token_roundtrip_and_rejection.1 "alice" 0 10 (by decide)
  · exact session_token_roundtrip_and_rejection.2.1 "alice" 0 86401 (by decide)
  · exact session_token_roundtrip_and_rejection.2.2.1 _ _ 0 rfl (by decide)
  · exact session_token_roundtrip_and_rejection.2.2.2 _ 0 rfl

/-! ## C4: a failed registration verification mutates nothing -/

/-- C4: if the library verification of the attestation fails on any sub-check
(for example a tampered challenge), Registration Finish returns the
attestation error and the whole state — in particular the Credential
Store — is unchanged: atomic success-or-noop. -/
theorem register_verify_failure_no_mutation
    (s : ServerState) (u : String) (att : AttestationResponse)
    (user : UserRec) (ch : List Nat) (e : VerifyErr)
    (hne : u ≠ "")
    (hu : mapLookup s.users u = some user)
    (hch : user.challenge = some ch)
    (hv : verify_registration_response att ch RP_ID ORIGIN true = .error e) :
    register_verify s u (some att) = (s, .error (.attestation e)) := by
  simp [register_verify, hne, hu, hch, hv]

theorem register_verify_failure_no_mutation_witness :
    register_verify
      ({ users := [("alice",
           { id := awUserId, name := "alice", challenge := some awChallenge,
             auth_challenge := none })], creds := [] } : ServerState)
      "alice" (some ({ awAttestation with challenge := [99] })) =
      (({ users := [("alice",
           { id := awUserId, name := "alice", challenge := some awChallenge,
             auth_challenge := none })], creds := [] } : ServerState),
        .error (.attestation .challengeMismatch)) :=
  register_verify_failure_no_mutation _ "alice" _ _ awChallenge
    .challengeMismatch (by decide) rfl rfl rfl

/-! ## C2: the code never consumes a challenge (read-once is violated) -/

/-- C2 (code behaviour at a concrete input): Registration Finish does not
delete the stored challenge, so the very same attestation can be verified
a second time against the same issuance and is accepted again, instead of
the second consume reporting not-found.  The first conjunct is the first,
legitimate Finish; the second shows the challenge entry still pending in
the resulting state; the third is the accepted replay. -/
theorem register_verify_challenge_not_consumed :
    ((register_verify awRegState "alice" (some awAttestation)).2 = .ok true) ∧
    ((mapLookup (register_verify awRegState "alice"
        (some awAttestation)).1.users "alice").map UserRec.challenge =
      some (some awChallenge)) ∧
    ((register_verify
        (register_verify awRegState "alice" (some awAttestation)).1
        "alice" (some awAttestation)).2 = .ok true) :=
  ⟨rfl, rfl, rfl⟩

/-! ## C3: challenges never expire (no issuance time is recorded) -/

/-- C3 (code behaviour): the pending challenge carries no issuance time and
`authenticate_verify` never compares against a clock, so an assertion for a
pending challenge is accepted at every time `now`, no matter how much time
has elapsed since issuance — consuming after the expiry window never
reports expired. -/
theorem authenticate_verify_ignores_elapsed_time :
    ∀ now : Nat,
      (authenticate_verify awStateAuth0 "alice" (some awFreshAssertion)
        now).2 = .ok (create_session_token now "alice") :=
  fun _ => rfl

/-! ## C7: all failures collapse to one HTTP 400 carrying internal detail -/

/-- C7 (code behaviour at concrete inputs): a replay failure and a
tampered-challenge failure both surface as the same status 400 — no
structured error kind distinguishes them — and the replay response's
detail string embeds the internal sub-check data (both counter values)
rather than only an error kind. -/
theorem authenticate_verify_http_collapses_error_kinds :
    ((authenticate_verify_http awStateAuth "alice" (some awReplayAssertion)
        0).2.1 = 400) ∧
    ((authenticate_verify_http awStateAuth "alice"
        (some awBadChallengeAssertion) 0).2.1 = 400) ∧
    ((authenticate_verify_http awStateAuth "alice" (some awReplayAssertion)
        0).2.2 =
      "Authentication failed: Response sign count of 1 was not greater than current count of 5") :=
  ⟨rfl, rfl, rfl⟩

/-! ## Helpers about the state after Registration Begin -/

theorem mapLookup_register_options (s : ServerState) (u : String)
    (uid ch : List Nat) (hne : u ≠ "") :
    mapLookup ((register_options s u uid ch).1).users u =
      some { id := uid, name := u, challenge := some ch,
             auth_challenge := none } := by
  simp [register_options, hne, mapLookup_mapSet]

theorem creds_register_options (s : ServerState) (u : String)
    (uid ch : List Nat) (hne : u ≠ "") :
    ((register_options s u uid ch).1).creds = s.creds := by
  simp [register_options, hne]

/-! ## C8: the user handle is regenerated on every Registration Begin -/

/-- C8 counterexample: in a state where "alice" already has the user handle
`[1]`, a further Registration Begin with fresh randomness `[2, 2]` replaces
the stored handle: afterwards it is `[2, 2]`, not the prior `[1]`.  This
refutes "if the identity already has a user handle, a subsequent
Registration Begin leaves the existing handle unchanged". -/
theorem register_options_regenerates_handle_cex :
    ((mapLookup ((register_options
        ({ users := [("alice",
             { id := [1], name := "alice", challenge := none,
               auth_challenge := none })], creds := [] } : ServerState)
        "alice" [2, 2] [3]).1).users "alice").map UserRec.id =
      some [2, 2]) ∧
    ¬ ((mapLookup ((register_options
        ({ users := [("alice",
             { id := [1], name := "alice", challenge := none,
               auth_challenge := none })], creds := [] } : ServerState)
        "alice" [2, 2] [3]).1).users "alice").map UserRec.id = some [1]) :=
  ⟨rfl, by decide⟩

/-- C8 amended: Registration Begin always allocates a fresh random user
handle for the identity, overwriting any existing handle — the handle is
regenerated on every Begin, whether or not a prior handle exists. -/
theorem register_options_always_fresh_handle
    (s : ServerState) (u : String) (uid ch : List Nat) (hne : u ≠ "") :
    (mapLookup ((register_options s u uid ch).1).users u).map UserRec.id =
      some uid := by
  rw [mapLookup_register_options s u uid ch hne]
  rfl

theorem register_options_always_fresh_handle_witness :
    (mapLookup ((register_options
        ({ users := [("alice",
             { id := [1], name := "alice", challenge := none,
               auth_challenge := none })], creds := [] } : ServerState)
        "alice" [7, 7] [3]).1).users "alice").map UserRec.id = some [7, 7] :=
  register_options_always_fresh_handle _ "alice" [7, 7] [3] (by decide)

/-! ## C10: Registration Begin discards a pending authentication challenge -/

/-- C10: Registration Begin replaces the identity's entire user record, so
afterwards the record holds no pending authentication challenge (whatever
challenges were pending before), and consequently every attempt to finish
an authentication ceremony begun earlier fails. -/
theorem register_options_discards_auth_challenge
    (s : ServerState) (u : String) (uid ch : List Nat) (hne : u ≠ "") :
    ((mapLookup ((register_options s u uid ch).1).users u).map
        UserRec.auth_challenge = some none) ∧
    (∀ (a : AssertionResponse) (now : Nat), ∃ e,
      (authenticate_verify (register_options s u uid ch).1 u (some a)
        now).2 = .error e) := by
  constructor
  · rw [mapLookup_register_options s u uid ch hne]
    rfl
  · intro a now
    cases hcred : mapLookup ((register_options s u uid ch).1).creds u with
    | none =>
      exact ⟨.userOrCredNotFound, by
        simp [authenticate_verify, hne,
              mapLookup_register_options s u uid ch hne, hcred]⟩
    | some cred =>
      exact ⟨.missingChallengeKey, by
        simp [authenticate_verify, hne,
              mapLookup_register_options s u uid ch hne, hcred]⟩

theorem register_options_discards_auth_challenge_witness :
    ((mapLookup ((register_options awStateAuth "alice" [7, 7]
        [3]).1).users "alice").map UserRec.auth_challenge = some none) ∧
    (∃ e, (authenticate_verify (register_options awStateAuth "alice" [7, 7]
        [3]).1 "alice" (some awFreshAssertion) 0).2 = .error e) :=
  ⟨(register_options_discards_auth_challenge awStateAuth "alice" [7, 7] [3]
      (by decide)).1,
   (register_options_discards_auth_challenge awStateAuth "alice" [7, 7] [3]
      (by decide)).2 awFreshAssertion 0⟩

/-! ## C9: every credentialed identity has a user record -/

/-- The invariant: the credential map's key set is a subset of the user
map's key set. -/
def credHasUser (s : ServerState) : Prop :=
  ∀ (u : String) (c : CredRec), mapLookup s.creds u = some c →
    ∃ r, mapLookup s.users u = some r

theorem credHasUser_register_options (s : ServerState) (u0 : String)
    (uid ch : List Nat) (h : credHasUser s) :
    credHasUser (register_options s u0 uid ch).1 := by
  by_cases hne : u0 = ""
  · simpa [register_options, hne] using h
  · intro u c hc
    rw [creds_register_options s u0 uid ch hne] at hc
    rcases h u c hc with ⟨r, hr⟩
    simp only [register_options, if_neg hne]
    rw [mapLookup_mapSet]
    by_cases he : u0 = u
    · rw [if_pos he]
      exact ⟨_, rfl⟩
    · rw [if_neg he]
      exact ⟨r, hr⟩

theorem credHasUser_register_verify (s : ServerState) (u0 : String)
    (c0 : Option AttestationResponse) (h : credHasUser s) :
    credHasUser (register_verify s u0 c0).1 := by
  cases c0 with
  | none => exact h
  | some att =>
    by_cases hne : u0 = ""
    · simpa [register_verify, hne] using h
    · cases hu0 : mapLookup s.users u0 with
      | none => simpa [register_verify, hne, hu0] using h
      | some user =>
        cases hch : user.challenge with
        | none => simpa [register_verify, hne, hu0, hch] using h
        | some ch =>
          cases hv : verify_registration_response att ch RP_ID ORIGIN true with
          | error e => simpa [register_verify, hne, hu0, hch, hv] using h
          | ok v =>
            intro u c hc
            simp only [register_verify, if_neg hne, hu0, hch, hv] at hc ⊢
            rw [mapLookup_mapSet] at hc
            by_cases he : u0 = u
            · subst he
              exact ⟨user, hu0⟩
            · rw [if_neg he] at hc
              exact h u c hc

theorem credHasUser_authenticate_options (s : ServerState) (u0 : String)
    (ch : List Nat) (h : credHasUser s) :
    credHasUser (authenticate_options s u0 ch).1 := by
  cases hc0 : mapLookup s.creds u0 with
  | none => simpa [authenticate_options, hc0] using h
  | some cred =>
    cases hu0 : mapLookup s.users u0 with
    | none => simpa [authenticate_options, hc0, hu0] using h
    | some user =>
      intro u c hc
      simp only [authenticate_options, hc0, hu0] at hc ⊢
      rcases h u c hc with ⟨r, hr⟩
      rw [mapLookup_mapSet]
      by_cases he : u0 = u
      · rw [if_pos he]
        exact ⟨_, rfl⟩
      · rw [if_neg he]
        exact ⟨r, hr⟩

theorem credHasUser_authenticate_verify (s : ServerState) (u0 : String)
    (c0 : Option AssertionResponse) (now : Nat) (h : credHasUser s) :
    credHasUser (authenticate_verify s u0 c0 now).1 := by
  cases c0 with
  | none => exact h
  | some a =>
    by_cases hne : u0 = ""
    · simpa [authenticate_verify, hne] using h
    · cases hu0 : mapLookup s.users u0 with
      | none => simpa [authenticate_verify, hne, hu0] using h
      | some user =>
        cases hc0 : mapLookup s.creds u0 with
        | none => simpa [authenticate_verify, hne, hu0, hc0] using h
        | some cred =>
          cases hch : user.auth_challenge with
          | none => simpa [authenticate_verify, hne, hu0, hc0, hch] using h
          | some ch =>
            cases hv : verify_authentication_response a ch RP_ID ORIGIN
                cred.public_key cred.sign_count true with
            | error e =>
              simpa [authenticate_verify, hne, hu0, hc0, hch, hv] using h
            | ok n =>
              intro u c hc
              simp only [authenticate_verify, if_neg hne, hu0, hc0, hch, hv]
                at hc ⊢
              rw [mapLookup_mapSet] at hc
              by_cases he : u0 = u
              · subst he
                exact ⟨user, hu0⟩
              · rw [if_neg he] at hc
                exact h u c hc

theorem reachable_credHasUser (s : ServerState) (h : Reachable s) :
    credHasUser s := by
  induction h with
  | init => intro u c hc; simp [mapLookup] at hc
  | regOptions u0 uid ch _ ih =>
    exact credHasUser_register_options _ u0 uid ch ih
  | regVerify u0 c0 _ ih =>
    exact credHasUser_register_verify _ u0 c0 ih
  | authOptions u0 ch _ ih =>
    exact credHasUser_authenticate_options _ u0 ch ih
  | authVerify u0 c0 now _ ih =>
    exact credHasUser_authenticate_verify _ u0 c0 now ih

/-- C9: in every reachable state, every identity with a stored credential
also has a user record (the credential map's keys are a subset of the user
map's keys), and therefore Authentication Begin never takes the
missing-user-key branch — the write of the pending authentication
challenge into `USERS[username]` cannot raise `KeyError` for an identity
that passed the credential lookup. -/
theorem reachable_creds_have_users (s : ServerState) (hs : Reachable s) :
    credHasUser s ∧
    ∀ (u : String) (ch : List Nat),
      (authenticate_options s u ch).2 ≠
        Except.error AuthBeginError.userKeyError := by
  refine ⟨reachable_credHasUser s hs, ?_⟩
  intro u ch
  cases hc0 : mapLookup s.creds u with
  | none => simp [authenticate_options, hc0]
  | some cred =>
    rcases reachable_credHasUser s hs u cred hc0 with ⟨r, hr⟩
    simp [authenticate_options, hc0, hr]

/-- A concrete reachable state holding a credential for "alice": Register
Begin then a successful Register Finish, starting from the empty state. -/
def awReachedState : ServerState :=
  (register_verify awRegState "alice" (some awAttestation)).1

theorem awReachedState_reachable : Reachable awReachedState :=
  Reachable.regVerify "alice" (some awAttestation)
    (Reachable.regOptions "alice" awUserId awChallenge Reachable.init)

theorem reachable_creds_have_users_witness :
    credHasUser awReachedState ∧
    ∀ (u : String) (ch : List Nat),
      (authenticate_options awReachedState u ch).2 ≠
        Except.error AuthBeginError.userKeyError :=
  reachable_creds_have_users awReachedState awReachedState_reachable
